import Mathlib

/-!
Verification development for the tab-management repository.

The repository coordinates one logical session across browser tabs that
share durable storage.  The core data is a presence registry: a mapping
from tab id to liveness timestamps, serialized as one record in storage.
We embed the registry operations of `src/lib/tab-tracker.ts` (cookie-backed,
`TabData = {timestamp, lastSeen}`), the registry-plus-session operations of
the `part_003` variant (localStorage-backed, value is a single last-seen
timestamp, and the sweep clears the session when the registry empties), and
the session operations of `src/lib/session-manager.ts`.

Timestamps are Ints (JavaScript `Date.now()` values; no overflow at these
magnitudes).  Stored records are modelled as `absent`, `malformed`
(present but unparsable: `CookieManager.getJSON` / `JSON.parse` returns
null in that case), or `wellFormed` with the parsed value.  All reads and
writes in the source replace the whole record, so each operation is a
function from the stored value to the new stored value.
-/

/-- One registry entry of `src/lib/tab-tracker.ts`: `interface TabData`. -/
structure TabData where
  timestamp : Int
  lastSeen : Int
deriving DecidableEq, Repr

/-- The parsed registry: `Record<string, TabData>`, as an association list
(JavaScript objects have no duplicate keys; insertion preserves order). -/
abbrev Registry := List (String × TabData)

/-- `TAB_TIMEOUT = 15000` in `src/lib/tab-tracker.ts`. -/
def TAB_TIMEOUT : Int := 15000

/-- The stored `active_tabs` cookie: absent, unparsable, or a parsed registry. -/
inductive StoredValue where
  | absent
  | malformed
  | wellFormed (r : Registry)
deriving DecidableEq, Repr

/-- `CookieManager.getJSON` (part_006 lines 68-77): returns the parsed value,
or null when the cookie is absent or `JSON.parse` throws. -/
def getJSON : StoredValue → Option Registry
  | StoredValue.absent => none
  | StoredValue.malformed => none
  | StoredValue.wellFormed r => some r

/-- `TabTracker.getActiveTabs`: `CookieManager.getJSON(this.TAB_COUNT_COOKIE) || {}`. -/
def getActiveTabs (s : StoredValue) : Registry :=
  (getJSON s).getD []

/-- First binding for key `k`, as JavaScript `tabs[k]` on a parsed object. -/
def lookupTab : Registry → String → Option TabData
  | [], _ => none
  | p :: rest, k => if p.1 = k then some p.2 else lookupTab rest k

/-- JavaScript `tabs[k] = v`: replace the binding if the key is present,
otherwise append a new binding. -/
def setEntry (r : Registry) (k : String) (v : TabData) : Registry :=
  if r.any (fun p => p.1 = k) then
    r.map (fun p => if p.1 = k then (k, v) else p)
  else r ++ [(k, v)]

/-- `TabTracker.registerTab` (lib/tab-tracker.ts 122-142), registry effect:
`tabs[this.tabId] = {timestamp: Date.now(), lastSeen: Date.now()}` then the
whole registry is written back. -/
def registerTab (s : StoredValue) (tid : String) (now : Int) : StoredValue :=
  StoredValue.wellFormed (setEntry (getActiveTabs s) tid (TabData.mk now now))

/-- `TabTracker.updateTabHeartbeat` (lib/tab-tracker.ts 176-191): if this
tab's entry is present, set its `lastSeen` to now and write the registry
back; otherwise do nothing. -/
def updateTabHeartbeat (s : StoredValue) (tid : String) (now : Int) : StoredValue :=
  let tabs := getActiveTabs s
  match lookupTab tabs tid with
  | none => s
  | some td => StoredValue.wellFormed (setEntry tabs tid (TabData.mk td.timestamp now))

/-- `TabTracker.unregisterTab` (lib/tab-tracker.ts 144-168): delete this
tab's entry; if the remainder is empty remove the cookie, else write it back. -/
def unregisterTab (s : StoredValue) (tid : String) : StoredValue :=
  let tabs := (getActiveTabs s).filter (fun p => p.1 ≠ tid)
  if tabs.isEmpty then StoredValue.absent else StoredValue.wellFormed tabs

/-- The sweep's deadness test: `currentTime - tabData.lastSeen > this.TAB_TIMEOUT`. -/
def isExpired (now : Int) (td : TabData) : Bool :=
  decide (TAB_TIMEOUT < now - td.lastSeen)

/-- `TabTracker.cleanupDeadTabs` (lib/tab-tracker.ts 199-229): delete every
entry whose `lastSeen` is older than `TAB_TIMEOUT`; only when at least one
entry was deleted, write back (removing the cookie when the result is
empty).  The Bool records whether a storage write or removal occurred. -/
def cleanupDeadTabs (s : StoredValue) (now : Int) : StoredValue × Bool :=
  let tabs := getActiveTabs s
  let kept := tabs.filter (fun p => ! isExpired now p.2)
  let hasChanges := tabs.any (fun p => isExpired now p.2)
  if hasChanges then
    (if kept.isEmpty then StoredValue.absent else StoredValue.wellFormed kept, true)
  else (s, false)

/-- `TabTracker.getTabCount` (lib/tab-tracker.ts 248-250):
`Object.keys(this.getActiveTabs()).length`. -/
def getTabCount (s : StoredValue) : Nat :=
  (getActiveTabs s).length

/-- Modelled from the spec (for comparison only): `countLive()` as the spec
words it — "the number of entries not yet expired", i.e. entries with
`now - lastSeenAt ≤ livenessTimeout`. -/
def countLiveSpec (r : Registry) (now timeout : Int) : Nat :=
  (r.filter (fun p => decide (now - p.2.lastSeen ≤ timeout))).length

/-! ## The part_003 variant

`src/unnamed/part_003` stores the registry under `app_tab_registry` in
localStorage as `Record<string, number>` (the value is the last heartbeat
time), and its sweep clears the session when the registry empties. -/

/-- part_003 registry: tab id to last heartbeat timestamp. -/
abbrev Registry3 := List (String × Int)

/-- `TAB_TIMEOUT = 3000` in part_003. -/
def TAB_TIMEOUT_3 : Int := 3000

/-- The stored `app_tab_registry` localStorage record of part_003. -/
inductive Stored3 where
  | absent
  | malformed
  | wellFormed (r : Registry3)
deriving DecidableEq, Repr

/-- `TabTracker.getTabRegistry` (part_003 218-226): parse, or `{}` when the
key is absent or `JSON.parse` throws. -/
def getTabRegistry3 : Stored3 → Registry3
  | Stored3.absent => []
  | Stored3.malformed => []
  | Stored3.wellFormed r => r

/-- The storage state part_003's sweep touches: the registry record and
whether the `app_session` record is present. -/
structure State3 where
  registry : Stored3
  session : Bool
deriving DecidableEq, Repr

/-- `TabTracker.getTabCount` (part_003 236-249):
`Object.values(registry).filter((timestamp) => now - timestamp <= this.TAB_TIMEOUT).length`. -/
def getTabCount3 (st : Stored3) (now : Int) : Nat :=
  (((getTabRegistry3 st).map Prod.snd).filter
    (fun ts => decide (now - ts ≤ TAB_TIMEOUT_3))).length

/-- `TabTracker.cleanupDeadTabs` (part_003 170-199) together with its callee
`clearSession` (part_003 201-216): delete every entry with
`now - registry[tabId] > TAB_TIMEOUT`; if anything was deleted, save the
registry, and if no tabs remain, clear the session — `clearSession` removes
the registry key and the `app_session` key. -/
def cleanupDeadTabs3 (st : State3) (now : Int) : State3 :=
  let reg := getTabRegistry3 st.registry
  let kept := reg.filter (fun p => ! decide (TAB_TIMEOUT_3 < now - p.2))
  let hasChanges := reg.any (fun p => decide (TAB_TIMEOUT_3 < now - p.2))
  if hasChanges then
    if kept.isEmpty then State3.mk Stored3.absent false
    else State3.mk (Stored3.wellFormed kept) st.session
  else st

/-! ## The session manager

`src/lib/session-manager.ts`: the session cookie holds
`{username, loginTime, sessionId}`; a separate heartbeat cookie is written
by the heartbeat and read by `validateSession`. -/

/-- `interface Session` of `src/lib/session-manager.ts`. -/
structure Session where
  username : String
  loginTime : Int
  sessionId : String
deriving DecidableEq, Repr

/-- `SESSION_DURATION = 30 * 60 * 1000` in session-manager.ts. -/
def SESSION_DURATION : Int := 1800000

/-- The stored `app_session` cookie. -/
inductive StoredSession where
  | absent
  | malformed
  | wellFormed (s : Session)
deriving DecidableEq, Repr

/-- The cookies the session manager owns: the session record and whether a
parsable `session_heartbeat` cookie is present. -/
structure SessionState where
  session : StoredSession
  heartbeat : Bool
deriving DecidableEq, Repr

/-- The structural check of `getSession` (session-manager.ts 188):
`!session.username || !session.loginTime || !session.sessionId` — each field
must be truthy (nonempty string, nonzero number). -/
def validStructure (s : Session) : Bool :=
  decide (s.username ≠ "") && decide (s.loginTime ≠ 0) && decide (s.sessionId ≠ "")

/-- `SessionManager.clearSession` (session-manager.ts 202-221): removes the
session cookie and the heartbeat cookie. -/
def clearSession (_st : SessionState) : SessionState :=
  SessionState.mk StoredSession.absent false

/-- `SessionManager.getSession` (session-manager.ts 181-200): null when the
cookie is absent or unparsable; when parsed, a structurally invalid record
is cleared (via `clearSession`) and null is returned; otherwise the session
is returned with storage untouched.  No TTL check happens here. -/
def getSession (st : SessionState) : SessionState × Option Session :=
  match st.session with
  | StoredSession.absent => (st, none)
  | StoredSession.malformed => (st, none)
  | StoredSession.wellFormed s =>
    if validStructure s then (st, some s) else (clearSession st, none)

/-- `SessionManager.updateHeartbeat` (session-manager.ts 85-114): read the
session via `getSession`; if none, stop (the heartbeat cookie is not
written); otherwise write the heartbeat cookie and rewrite the session
cookie with a fresh expiration (same value). -/
def updateHeartbeatOp (st : SessionState) : SessionState :=
  let r := getSession st
  match r.2 with
  | none => r.1
  | some _ => SessionState.mk r.1.session true

/-- `SessionManager.createSession` (session-manager.ts 148-179): build
`{username, loginTime: Date.now(), sessionId}`, store it unconditionally
(no check against any existing session, no failure path), then start the
heartbeat, whose initial tick is `updateHeartbeat`. -/
def createSession (st : SessionState) (username : String) (now : Int)
    (sid : String) : SessionState :=
  updateHeartbeatOp
    (SessionState.mk (StoredSession.wellFormed (Session.mk username now sid)) st.heartbeat)

/-- `SessionManager.validateSession` (session-manager.ts 116-146): false if
`getSession` yields nothing; false (clearing the session) if the heartbeat
cookie is missing; false (clearing the session) if
`Date.now() - session.loginTime > SESSION_DURATION`; true otherwise. -/
def validateSession (st : SessionState) (now : Int) : SessionState × Bool :=
  let r := getSession st
  match r.2 with
  | none => (r.1, false)
  | some s =>
    if r.1.heartbeat then
      if SESSION_DURATION < now - s.loginTime then (clearSession r.1, false)
      else (r.1, true)
    else (clearSession r.1, false)

/-! ## Concrete tokens used in counterexamples and witnesses -/

/-- A concrete tab id. -/
def tidA : String := "a"

/-- Another concrete tab id. -/
def tidB : String := "b"

/-- A concrete principal. -/
def uAlice : String := "alice"

/-- Another concrete principal. -/
def uBob : String := "bob"

/-- A concrete session id. -/
def sidOne : String := "s1"

/-- Another concrete session id. -/
def sidTwo : String := "s2"

/-! ## Helper lemmas about the registry operations -/

/-- Every entry of `setEntry r k v` is the new binding or an entry of `r`. -/
lemma mem_setEntry {r : Registry} {k : String} {v : TabData} {p : String × TabData}
    (h : p ∈ setEntry r k v) : p = (k, v) ∨ p ∈ r := by
  unfold setEntry at h
  split at h
  · obtain ⟨q, hq, hfq⟩ := List.mem_map.mp h
    by_cases hk : q.1 = k
    · rw [if_pos hk] at hfq
      exact Or.inl hfq.symm
    · rw [if_neg hk] at hfq
      exact Or.inr (hfq ▸ hq)
  · rcases List.mem_append.mp h with h1 | h1
    · exact Or.inr h1
    · exact Or.inl (List.mem_singleton.mp h1)

/-- `setEntry` at key `tid` neither adds nor removes nor changes bindings
for any other key. -/
lemma mem_setEntry_ne {r : Registry} {tid k : String} {w v : TabData}
    (hne : k ≠ tid) : ((k, v) ∈ setEntry r tid w) ↔ (k, v) ∈ r := by
  unfold setEntry
  split
  · constructor
    · intro h
      obtain ⟨q, hq, hfq⟩ := List.mem_map.mp h
      by_cases hk : q.1 = tid
      · rw [if_pos hk] at hfq
        exact absurd (congrArg Prod.fst hfq).symm hne
      · rw [if_neg hk] at hfq
        exact hfq ▸ hq
    · intro h
      refine List.mem_map.mpr ⟨(k, v), h, ?_⟩
      exact if_neg hne
  · constructor
    · intro h
      rcases List.mem_append.mp h with h1 | h1
      · exact h1
      · exact absurd (congrArg Prod.fst (List.mem_singleton.mp h1)) hne
    · intro h
      exact List.mem_append.mpr (Or.inl h)

/-- A successful lookup is a membership. -/
lemma lookupTab_mem {r : Registry} {k : String} {v : TabData}
    (h : lookupTab r k = some v) : (k, v) ∈ r := by
  induction r with
  | nil => simp [lookupTab] at h
  | cons p rest ih =>
    unfold lookupTab at h
    split at h
    · rename_i hc
      have h2 := Option.some.inj h
      have h3 : (k, v) = p := by
        cases p
        simp_all
      rw [h3]
      exact List.mem_cons_self p rest
    · exact List.mem_cons_of_mem p (ih h)

/-- A successful lookup makes the `any` test of `setEntry` succeed. -/
lemma lookup_any {r : Registry} {k : String} {v : TabData}
    (h : lookupTab r k = some v) : r.any (fun p => p.1 = k) = true := by
  induction r with
  | nil => simp [lookupTab] at h
  | cons p rest ih =>
    unfold lookupTab at h
    rw [List.any_cons]
    split at h
    · rename_i hc
      simp [hc]
    · rename_i hc
      simp [ih h]

/-- Lookup after replacing every binding at key `k` finds the new value,
provided some binding at `k` existed. -/
lemma lookupTab_map_set {r : Registry} {k : String} {td v : TabData}
    (h : lookupTab r k = some td) :
    lookupTab (r.map (fun p => if p.1 = k then (k, v) else p)) k = some v := by
  induction r with
  | nil => simp [lookupTab] at h
  | cons p rest ih =>
    unfold lookupTab at h
    by_cases hc : p.1 = k
    · simp [lookupTab, hc]
    · rw [if_neg hc] at h
      simp only [List.map_cons, if_neg hc]
      unfold lookupTab
      rw [if_neg hc]
      exact ih h

/-- `setEntry` at a present key makes the subsequent lookup return the new
value. -/
lemma lookupTab_setEntry {r : Registry} {k : String} {td v : TabData}
    (h : lookupTab r k = some td) :
    lookupTab (setEntry r k v) k = some v := by
  unfold setEntry
  rw [if_pos (lookup_any h)]
  exact lookupTab_map_set h

/-! ## Claim C1: zero-liveness teardown timing -/

/-- Claim C1 counterexample: teardown IS immediate on observing zero
liveness.  With one entry last seen at time 0 and timeout 3000, the live
count is 1 at time 3000 and 0 at time 3001; the sweep at time 3001 — the
very first instant the observed live count is zero — already clears the
session.  No teardown is scheduled after a grace delay and nothing is
cancellable: the session is gone at the instant of the zero transition. -/
theorem c1_counterexample :
    getTabCount3 (Stored3.wellFormed [(tidA, 0)]) 3000 = 1 ∧
    getTabCount3 (Stored3.wellFormed [(tidA, 0)]) 3001 = 0 ∧
    (cleanupDeadTabs3 (State3.mk (Stored3.wellFormed [(tidA, 0)]) true) 3001).session
      = false := by
  refine ⟨by decide, by decide, by decide⟩

/-- Claim C1 (amended): teardown is immediate, not grace-delayed.  The
part_003 sweep clears the session exactly when the registry it reads is
nonempty and every entry is expired (`now - lastSeen > livenessTimeout`);
equivalently, after a sweep the session record is gone iff it was already
gone or the sweep emptied a nonempty registry.  A register can prevent
teardown only by being persisted before that sweep runs; there is no
scheduled, cancellable grace-delay teardown. -/
theorem c1_teardown_immediate (st : State3) (now : Int) :
    (cleanupDeadTabs3 st now).session = false ↔
      (st.session = false ∨
        (getTabRegistry3 st.registry ≠ [] ∧
          ∀ p ∈ getTabRegistry3 st.registry, TAB_TIMEOUT_3 < now - p.2)) := by
  simp only [cleanupDeadTabs3]
  split_ifs with h hk
  · constructor
    · intro _
      refine Or.inr ?_
      obtain ⟨q, hq, _⟩ := List.any_eq_true.mp h
      refine ⟨List.ne_nil_of_mem hq, ?_⟩
      intro p hp
      have h2 := (List.filter_eq_nil_iff.mp (List.isEmpty_iff.mp hk)) p hp
      simp only [Bool.not_eq_true', decide_eq_false_iff_not, not_not] at h2
      exact h2
    · intro _
      rfl
  · constructor
    · intro hs
      exact Or.inl hs
    · intro hd
      rcases hd with hs | ⟨_, hall⟩
      · exact hs
      · exfalso
        apply hk
        rw [List.isEmpty_iff, List.filter_eq_nil_iff]
        intro p hp
        simp [hall p hp]
  · constructor
    · intro hs
      exact Or.inl hs
    · intro hd
      rcases hd with hs | ⟨hne, hall⟩
      · exact hs
      · exfalso
        obtain ⟨q, hq⟩ := List.exists_mem_of_ne_nil _ hne
        exact h (List.any_eq_true.mpr ⟨q, hq, by simp [hall q hq]⟩)

/-! ## Claim C2: login with a conflicting principal -/

/-- Claim C2 counterexample: with alice's session stored, a login by bob
does not fail — `createSession` has no failure path and no principal check
— and it replaces the stored session with bob's. -/
theorem c2_counterexample :
    (createSession
        (SessionState.mk (StoredSession.wellFormed (Session.mk uAlice 50 sidOne)) true)
        uBob 100 sidTwo).session
      = StoredSession.wellFormed (Session.mk uBob 100 sidTwo) ∧
    (createSession
        (SessionState.mk (StoredSession.wellFormed (Session.mk uAlice 50 sidOne)) true)
        uBob 100 sidTwo).session
      ≠ StoredSession.wellFormed (Session.mk uAlice 50 sidOne) := by
  refine ⟨by decide, by decide⟩

/-- Claim C2 (amended): `createSession` never fails and never consults the
stored session: for every prior state it unconditionally stores a fresh
session for the given principal (replacing any existing session, same or
different principal), starts the heartbeat, and a subsequent `getSession`
returns the new session.  There is no `AlreadyAuthenticated` error anywhere
in the code. -/
theorem c2_login_always_replaces (st : SessionState) (u : String) (now : Int)
    (sid : String) (hu : u ≠ "") (hn : now ≠ 0) (hs : sid ≠ "") :
    (createSession st u now sid).session
      = StoredSession.wellFormed (Session.mk u now sid) ∧
    (createSession st u now sid).heartbeat = true ∧
    (getSession (createSession st u now sid)).2 = some (Session.mk u now sid) := by
  have hv : validStructure (Session.mk u now sid) = true := by
    simp [validStructure, hu, hn, hs]
  simp [createSession, updateHeartbeatOp, getSession, hv]

/-- Witness for C2: the amended theorem applied at bob logging in over
alice's stored session. -/
theorem c2_witness :
    (createSession
        (SessionState.mk (StoredSession.wellFormed (Session.mk uAlice 50 sidOne)) true)
        uBob 100 sidTwo).session
      = StoredSession.wellFormed (Session.mk uBob 100 sidTwo) ∧
    (createSession
        (SessionState.mk (StoredSession.wellFormed (Session.mk uAlice 50 sidOne)) true)
        uBob 100 sidTwo).heartbeat = true ∧
    (getSession (createSession
        (SessionState.mk (StoredSession.wellFormed (Session.mk uAlice 50 sidOne)) true)
        uBob 100 sidTwo)).2 = some (Session.mk uBob 100 sidTwo) :=
  c2_login_always_replaces
    (SessionState.mk (StoredSession.wellFormed (Session.mk uAlice 50 sidOne)) true)
    uBob 100 sidTwo (by decide) (by decide) (by decide)

/-! ## Claim C3: renew on an evicted entry -/

/-- Claim C3 counterexample: a renew by a context whose entry is absent
(evicted) does NOT re-register it.  With only tab b registered, a heartbeat
by tab a leaves the store unchanged and a's entry is still absent after the
renew. -/
theorem c3_counterexample :
    updateTabHeartbeat (StoredValue.wellFormed [(tidB, TabData.mk 0 0)]) tidA 5
      = StoredValue.wellFormed [(tidB, TabData.mk 0 0)] ∧
    lookupTab
      (getActiveTabs
        (updateTabHeartbeat (StoredValue.wellFormed [(tidB, TabData.mk 0 0)]) tidA 5))
      tidA = none := by
  refine ⟨by decide, by decide⟩

/-- Claim C3 (amended): the heartbeat never re-registers.  When the calling
context's entry is absent, `updateTabHeartbeat` is a complete no-op (no
write, store unchanged, entry still absent); when the entry is present it
sets that entry's `lastSeen` to now, keeping its registration timestamp. -/
theorem c3_renew_noop (s : StoredValue) (tid : String) (now : Int) :
    (lookupTab (getActiveTabs s) tid = none → updateTabHeartbeat s tid now = s) ∧
    (∀ td, lookupTab (getActiveTabs s) tid = some td →
      lookupTab (getActiveTabs (updateTabHeartbeat s tid now)) tid
        = some (TabData.mk td.timestamp now)) := by
  constructor
  · intro h
    simp [updateTabHeartbeat, h]
  · intro td h
    simp only [updateTabHeartbeat, h]
    exact lookupTab_setEntry h

/-- Witness for C3: the amended theorem applied to a present entry — the
heartbeat refreshes `lastSeen` to 7 and keeps the registration time 2. -/
theorem c3_witness :
    lookupTab
      (getActiveTabs
        (updateTabHeartbeat (StoredValue.wellFormed [(tidA, TabData.mk 2 3)]) tidA 7))
      tidA = some (TabData.mk 2 7) :=
  (c3_renew_noop (StoredValue.wellFormed [(tidA, TabData.mk 2 3)]) tidA 7).2
    (TabData.mk 2 3) (by decide)

/-! ## Claim C4: countLive and expired entries -/

/-- In part_003, the liveness filter used by `getTabCount` keeps exactly the
values of the entries the sweep would keep: `now - ts ≤ timeout` is the
negation of the sweep's `now - ts > timeout`. -/
lemma liveFilter_eq_kept (reg : Registry3) (now : Int) :
    (reg.map Prod.snd).filter (fun ts => decide (now - ts ≤ TAB_TIMEOUT_3))
      = (reg.filter (fun p => ! decide (TAB_TIMEOUT_3 < now - p.2))).map Prod.snd := by
  rw [List.filter_map]
  congr 1
  apply List.filter_congr
  intro p _
  by_cases hx : TAB_TIMEOUT_3 < now - p.2
  · simp [Function.comp, hx, not_le.mpr hx]
  · simp [Function.comp, hx, not_lt.mp hx]

/-- Claim C4 counterexample: in `src/lib/tab-tracker.ts`, `getTabCount`
counts `Object.keys(...).length` with no liveness filter.  A registry whose
single entry was last seen at time 0 still yields count 1 at time 20000,
although `now - lastSeenAt > livenessTimeout` (20000 - 0 > 15000), so the
expired entry is NOT excluded; the spec-worded live count at that instant
is 0. -/
theorem c4_counterexample :
    getTabCount (StoredValue.wellFormed [(tidA, TabData.mk 0 0)]) = 1 ∧
    countLiveSpec [(tidA, TabData.mk 0 0)] 20000 TAB_TIMEOUT = 0 ∧
    TAB_TIMEOUT < (20000 : Int) - (TabData.mk 0 0).lastSeen := by
  refine ⟨by decide, by decide, by decide⟩

/-- Claim C4 (amended): reads never mutate the store (both counts are pure
functions of the stored value), but only the part_003/part_004 variants
filter by liveness: part_003's `getTabCount` returns exactly the number of
entries with `now - lastSeenAt ≤ livenessTimeout` — the size of the
registry its own sweep would leave — while `src/lib/tab-tracker.ts`'s
`getTabCount` returns the raw number of stored entries, expired included
(see the counterexample). -/
theorem c4_live_count (reg : Registry3) (now : Int) (b : Bool) :
    getTabCount3 (Stored3.wellFormed reg) now
      = (reg.filter (fun p => decide (now - p.2 ≤ TAB_TIMEOUT_3))).length ∧
    getTabCount3 (Stored3.wellFormed reg) now
      = (getTabRegistry3
          (cleanupDeadTabs3 (State3.mk (Stored3.wellFormed reg) b) now).registry).length := by
  have hc : getTabCount3 (Stored3.wellFormed reg) now
      = (reg.filter (fun p => ! decide (TAB_TIMEOUT_3 < now - p.2))).length := by
    unfold getTabCount3 getTabRegistry3
    rw [liveFilter_eq_kept, List.length_map]
  constructor
  · unfold getTabCount3 getTabRegistry3
    rw [List.filter_map, List.length_map]
    rfl
  · rw [hc]
    simp only [cleanupDeadTabs3, getTabRegistry3]
    split_ifs with h hk
    · simp [List.isEmpty_iff.mp hk, getTabRegistry3]
    · simp [getTabRegistry3]
    · have hf : ∀ p ∈ reg, (! decide (TAB_TIMEOUT_3 < now - p.2)) = true := by
        intro p hp
        have h2 := List.any_eq_false.mp (Bool.not_eq_true _ |>.mp h) p hp
        simpa using h2
      rw [List.filter_eq_self.mpr hf]

/-! ## Claims C5-C7: the sweep and the frame conditions -/

/-- Reading a well-formed store yields its registry. -/
lemma getActiveTabs_wellFormed (r : Registry) :
    getActiveTabs (StoredValue.wellFormed r) = r := rfl

/-- Reading an absent store yields the empty registry. -/
lemma getActiveTabs_absent : getActiveTabs StoredValue.absent = [] := rfl

/-- Core sweep characterisation: an entry is in the post-sweep registry iff
it was stored and is not expired. -/
lemma cleanup_mem_iff (s : StoredValue) (now : Int) (k : String) (td : TabData) :
    ((k, td) ∈ getActiveTabs (cleanupDeadTabs s now).1) ↔
      ((k, td) ∈ getActiveTabs s ∧ now - td.lastSeen ≤ TAB_TIMEOUT) := by
  simp only [cleanupDeadTabs]
  split_ifs with h hk
  · constructor
    · intro hmem
      rw [getActiveTabs_absent] at hmem
      simp at hmem
    · rintro ⟨hmem, hle⟩
      exfalso
      have hmem2 : (k, td) ∈ (getActiveTabs s).filter (fun p => ! isExpired now p.2) :=
        List.mem_filter.mpr ⟨hmem, by simp [isExpired, not_lt.mpr hle]⟩
      rw [List.isEmpty_iff.mp hk] at hmem2
      simp at hmem2
  · rw [getActiveTabs_wellFormed]
    constructor
    · intro hmem
      obtain ⟨h1, h2⟩ := List.mem_filter.mp hmem
      refine ⟨h1, ?_⟩
      simpa [isExpired] using h2
    · rintro ⟨hmem, hle⟩
      exact List.mem_filter.mpr ⟨hmem, by simp [isExpired, not_lt.mpr hle]⟩
  · constructor
    · intro hmem
      refine ⟨hmem, ?_⟩
      have h2 := List.any_eq_false.mp (Bool.not_eq_true _ |>.mp h) (k, td) hmem
      simpa [isExpired] using h2
    · rintro ⟨hmem, _⟩
      exact hmem

/-- A sweep whose read registry has no expired entry does nothing and
performs no write. -/
lemma cleanup_noop_of_fresh (s : StoredValue) (now : Int)
    (h : (getActiveTabs s).any (fun p => isExpired now p.2) = false) :
    cleanupDeadTabs s now = (s, false) := by
  simp [cleanupDeadTabs, h]

/-- Every entry surviving a sweep is not expired at that sweep's time. -/
lemma cleanup_fresh (s : StoredValue) (now : Int) :
    (getActiveTabs (cleanupDeadTabs s now).1).any (fun p => isExpired now p.2)
      = false := by
  rw [List.any_eq_false]
  intro p hp
  have h2 := ((cleanup_mem_iff s now p.1 p.2).mp hp).2
  simp [isExpired, not_lt.mpr h2]

/-- Claim C5: the sweep `cleanupDeadTabs` removes exactly the entries with
`now - lastSeen > TAB_TIMEOUT`: an entry is in the post-sweep registry iff
it was stored before the sweep, unchanged, and satisfies
`now - lastSeen ≤ TAB_TIMEOUT`; in particular no entry is evicted before
its deadline. -/
theorem c5_sweep_exact (s : StoredValue) (now : Int) (k : String) (td : TabData) :
    ((k, td) ∈ getActiveTabs (cleanupDeadTabs s now).1) ↔
      ((k, td) ∈ getActiveTabs s ∧ now - td.lastSeen ≤ TAB_TIMEOUT) :=
  cleanup_mem_iff s now k td

/-- Claim C6: the sweep is idempotent — running it again at the same time
leaves the registry state of the first run unchanged — and on an already
clean registry (no expired entry) it performs no storage write at all
(the write flag is false and the store is untouched). -/
theorem c6_sweep_idempotent (s : StoredValue) (now : Int) :
    (cleanupDeadTabs (cleanupDeadTabs s now).1 now).1 = (cleanupDeadTabs s now).1 ∧
    ((∀ p ∈ getActiveTabs s, isExpired now p.2 = false) →
      cleanupDeadTabs s now = (s, false)) := by
  constructor
  · rw [cleanup_noop_of_fresh (cleanupDeadTabs s now).1 now (cleanup_fresh s now)]
  · intro hclean
    refine cleanup_noop_of_fresh s now ?_
    rw [List.any_eq_false]
    intro p hp
    simp [hclean p hp]

/-- Witness for C6 at a registry with one fresh entry: the double sweep
equals the single sweep, and the clean sweep writes nothing. -/
theorem c6_witness :
    (cleanupDeadTabs
        (cleanupDeadTabs (StoredValue.wellFormed [(tidA, TabData.mk 0 0)]) 5).1 5).1
      = (cleanupDeadTabs (StoredValue.wellFormed [(tidA, TabData.mk 0 0)]) 5).1 ∧
    cleanupDeadTabs (StoredValue.wellFormed [(tidA, TabData.mk 0 0)]) 5
      = (StoredValue.wellFormed [(tidA, TabData.mk 0 0)], false) :=
  ⟨(c6_sweep_idempotent (StoredValue.wellFormed [(tidA, TabData.mk 0 0)]) 5).1,
   (c6_sweep_idempotent (StoredValue.wellFormed [(tidA, TabData.mk 0 0)]) 5).2
     (by decide)⟩

/-- Claim C7 (frame property): an operation keyed by another context never
mutates a context's entry.  A heartbeat, register, or unregister by `tid`
leaves every binding with a key other than `tid` exactly as it was; the
sweep only deletes — every entry of the post-sweep registry is literally an
entry of the pre-sweep registry. -/
theorem c7_frame :
    (∀ (s : StoredValue) (tid : String) (now : Int) (k : String) (v : TabData),
      k ≠ tid →
      (((k, v) ∈ getActiveTabs (updateTabHeartbeat s tid now)) ↔
        (k, v) ∈ getActiveTabs s) ∧
      (((k, v) ∈ getActiveTabs (registerTab s tid now)) ↔
        (k, v) ∈ getActiveTabs s) ∧
      (((k, v) ∈ getActiveTabs (unregisterTab s tid)) ↔
        (k, v) ∈ getActiveTabs s)) ∧
    (∀ (s : StoredValue) (now : Int) (p : String × TabData),
      p ∈ getActiveTabs (cleanupDeadTabs s now).1 → p ∈ getActiveTabs s) := by
  constructor
  · intro s tid now k v hne
    refine ⟨?_, ?_, ?_⟩
    · cases hl : lookupTab (getActiveTabs s) tid with
      | none => simp [updateTabHeartbeat, hl]
      | some td =>
        simp only [updateTabHeartbeat, hl, getActiveTabs_wellFormed]
        exact mem_setEntry_ne hne
    · simp only [registerTab, getActiveTabs_wellFormed]
      exact mem_setEntry_ne hne
    · simp only [unregisterTab]
      split_ifs with hk
      · rw [getActiveTabs_absent]
        constructor
        · intro hmem
          simp at hmem
        · intro hmem
          exfalso
          have hmem2 : (k, v) ∈ (getActiveTabs s).filter (fun p => p.1 ≠ tid) :=
            List.mem_filter.mpr ⟨hmem, by simp [hne]⟩
          rw [List.isEmpty_iff.mp hk] at hmem2
          simp at hmem2
      · rw [getActiveTabs_wellFormed]
        constructor
        · intro hmem
          exact (List.mem_filter.mp hmem).1
        · intro hmem
          exact List.mem_filter.mpr ⟨hmem, by simp [hne]⟩
  · intro s now p hp
    exact ((cleanup_mem_iff s now p.1 p.2).mp hp).1

/-- Witness for C7: tab b's heartbeat leaves tab a's entry alone, and a
surviving entry of a sweep was a stored entry. -/
theorem c7_witness :
    (((tidA, TabData.mk 0 0) ∈
        getActiveTabs
          (updateTabHeartbeat (StoredValue.wellFormed [(tidA, TabData.mk 0 0)]) tidB 5)) ↔
      (tidA, TabData.mk 0 0) ∈
        getActiveTabs (StoredValue.wellFormed [(tidA, TabData.mk 0 0)])) ∧
    (tidA, TabData.mk 0 0) ∈
      getActiveTabs (StoredValue.wellFormed [(tidA, TabData.mk 0 0)]) :=
  ⟨(c7_frame.1 (StoredValue.wellFormed [(tidA, TabData.mk 0 0)]) tidB 5 tidA
      (TabData.mk 0 0) (by decide)).1,
   c7_frame.2 (StoredValue.wellFormed [(tidA, TabData.mk 0 0)]) 5
      (tidA, TabData.mk 0 0) (by decide)⟩

/-! ## Claim C8: getSession and the session TTL -/

/-- Claim C8 counterexample: `getSession` performs NO TTL check.  A stored,
structurally valid session with `loginTime = 1` is returned as-is with the
store untouched even at time 5000000, although its age then exceeds
`SESSION_DURATION` (30 minutes) — an expired-by-TTL record is neither
rejected nor cleared by `get`. -/
theorem c8_counterexample :
    (getSession
        (SessionState.mk (StoredSession.wellFormed (Session.mk uAlice 1 sidOne)) true)).2
      = some (Session.mk uAlice 1 sidOne) ∧
    (getSession
        (SessionState.mk (StoredSession.wellFormed (Session.mk uAlice 1 sidOne)) true)).1
      = SessionState.mk (StoredSession.wellFormed (Session.mk uAlice 1 sidOne)) true ∧
    SESSION_DURATION < (5000000 : Int) - (Session.mk uAlice 1 sidOne).loginTime := by
  refine ⟨by decide, by decide, by decide⟩

/-- Claim C8 (amended): `getSession` returns the stored session whenever it
is present and structurally valid, regardless of its age, leaving storage
untouched; it returns nothing and clears storage only on structural
invalidity.  The TTL check lives in the separate `validateSession`, which
clears the session and reports false when
`now - loginTime > SESSION_DURATION`. -/
theorem c8_get_no_ttl (st : SessionState) (s : Session) (now : Int) :
    (st.session = StoredSession.wellFormed s → validStructure s = true →
      getSession st = (st, some s)) ∧
    (st.session = StoredSession.wellFormed s → validStructure s = false →
      getSession st = (clearSession st, none)) ∧
    (st.session = StoredSession.wellFormed s → validStructure s = true →
      st.heartbeat = true → SESSION_DURATION < now - s.loginTime →
      validateSession st now = (clearSession st, false)) := by
  refine ⟨?_, ?_, ?_⟩
  · intro h hv
    simp [getSession, h, hv]
  · intro h hv
    simp [getSession, h, hv]
  · intro h hv hhb httl
    simp [validateSession, getSession, h, hv, hhb, httl]

/-- Witness for C8: alice's stale session is returned by `getSession` but
cleared by `validateSession` at time 5000000. -/
theorem c8_witness :
    getSession
        (SessionState.mk (StoredSession.wellFormed (Session.mk uAlice 1 sidOne)) true)
      = (SessionState.mk (StoredSession.wellFormed (Session.mk uAlice 1 sidOne)) true,
         some (Session.mk uAlice 1 sidOne)) ∧
    validateSession
        (SessionState.mk (StoredSession.wellFormed (Session.mk uAlice 1 sidOne)) true)
        5000000
      = (clearSession
          (SessionState.mk (StoredSession.wellFormed (Session.mk uAlice 1 sidOne)) true),
         false) :=
  ⟨(c8_get_no_ttl
      (SessionState.mk (StoredSession.wellFormed (Session.mk uAlice 1 sidOne)) true)
      (Session.mk uAlice 1 sidOne) 5000000).1 rfl (by decide),
   (c8_get_no_ttl
      (SessionState.mk (StoredSession.wellFormed (Session.mk uAlice 1 sidOne)) true)
      (Session.mk uAlice 1 sidOne) 5000000).2.2 rfl (by decide) rfl (by decide)⟩

/-! ## Claim C9: malformed stored snapshots -/

/-- Claim C9: an unparsable stored snapshot is treated as the empty mapping
by every read, and no operation built on the read fails: `getJSON` yields
null, `getActiveTabs` and part_003's `getTabRegistry` yield the empty
registry, the counts are 0, the heartbeat and sweep on a malformed store
leave it untouched (the sweep also performs no write), and register and
unregister simply proceed as if the registry were empty.  All operations
are total — none raises an error. -/
theorem c9_malformed_treated_empty (now : Int) (tid : String) :
    getJSON StoredValue.malformed = none ∧
    getActiveTabs StoredValue.malformed = [] ∧
    getTabCount StoredValue.malformed = 0 ∧
    cleanupDeadTabs StoredValue.malformed now = (StoredValue.malformed, false) ∧
    updateTabHeartbeat StoredValue.malformed tid now = StoredValue.malformed ∧
    registerTab StoredValue.malformed tid now
      = StoredValue.wellFormed [(tid, TabData.mk now now)] ∧
    unregisterTab StoredValue.malformed tid = StoredValue.absent ∧
    getTabRegistry3 Stored3.malformed = [] ∧
    getTabCount3 Stored3.malformed now = 0 :=
  ⟨rfl, rfl, rfl, rfl, rfl, rfl, rfl, rfl, rfl⟩

/-! ## Claim C10: the registration-time invariant -/

/-- Stores of the `active_tabs` record reachable by the TabTracker
operations of `src/lib/tab-tracker.ts`, paired with the current clock.
Each operation stamps entries with the clock at which it runs, and the
clock never decreases (`Date.now()` is monotone). -/
inductive Reachable : StoredValue → Int → Prop where
  | start (t : Int) : Reachable StoredValue.absent t
  | tick {s : StoredValue} {t t2 : Int} (h : Reachable s t) (hle : t ≤ t2) :
      Reachable s t2
  | register {s : StoredValue} {t : Int} (tid : String) (h : Reachable s t) :
      Reachable (registerTab s tid t) t
  | heartbeat {s : StoredValue} {t : Int} (tid : String) (h : Reachable s t) :
      Reachable (updateTabHeartbeat s tid t) t
  | unregister {s : StoredValue} {t : Int} (tid : String) (h : Reachable s t) :
      Reachable (unregisterTab s tid) t
  | sweep {s : StoredValue} {t : Int} (h : Reachable s t) :
      Reachable (cleanupDeadTabs s t).1 t

/-- Strengthened inductive invariant: every stored entry was registered no
later than it was last seen, and last seen no later than the clock. -/
lemma reachable_inv {s : StoredValue} {t : Int} (h : Reachable s t) :
    ∀ p ∈ getActiveTabs s, p.2.timestamp ≤ p.2.lastSeen ∧ p.2.lastSeen ≤ t := by
  induction h with
  | start t =>
    intro p hp
    simp [getActiveTabs_absent] at hp
  | tick h hle ih =>
    intro p hp
    exact ⟨(ih p hp).1, le_trans (ih p hp).2 hle⟩
  | register tid h ih =>
    intro p hp
    simp only [registerTab, getActiveTabs_wellFormed] at hp
    rcases mem_setEntry hp with rfl | hm
    · exact ⟨le_refl _, le_refl _⟩
    · exact ih p hm
  | heartbeat tid h ih =>
    rename_i s t
    intro p hp
    cases hl : lookupTab (getActiveTabs s) tid with
    | none =>
      simp only [updateTabHeartbeat, hl] at hp
      exact ih p hp
    | some td =>
      simp only [updateTabHeartbeat, hl, getActiveTabs_wellFormed] at hp
      rcases mem_setEntry hp with rfl | hm
      · have h2 := ih (tid, td) (lookupTab_mem hl)
        exact ⟨le_trans h2.1 h2.2, le_refl _⟩
      · exact ih p hm
  | unregister tid h ih =>
    intro p hp
    simp only [unregisterTab] at hp
    split_ifs at hp with hk
    · simp [getActiveTabs_absent] at hp
    · rw [getActiveTabs_wellFormed] at hp
      exact ih p (List.mem_filter.mp hp).1
  | sweep h ih =>
    rename_i s t
    intro p hp
    exact ih p ((cleanup_mem_iff s t p.1 p.2).mp hp).1

/-- Claim C10: in every store reachable by the TabTracker operations,
every registry entry satisfies `lastSeen ≥ timestamp`: `registerTab`
creates entries with both fields equal to the current time, the heartbeat
only moves `lastSeen` forward (to the current, no smaller, time), and the
sweep and unregister only delete entries. -/
theorem c10_lastSeen_ge_timestamp {s : StoredValue} {t : Int}
    (h : Reachable s t) :
    ∀ p ∈ getActiveTabs s, p.2.timestamp ≤ p.2.lastSeen :=
  fun p hp => (reachable_inv h p hp).1

/-- Witness for C10: register tab a at time 0, advance the clock to 5,
heartbeat at time 5 — the entry is then `{timestamp 0, lastSeen 5}` and
satisfies the invariant. -/
theorem c10_witness : (TabData.mk 0 5).timestamp ≤ (TabData.mk 0 5).lastSeen :=
  c10_lastSeen_ge_timestamp
    (Reachable.heartbeat tidA
      ((Reachable.tick (Reachable.register tidA (Reachable.start 0)) (by decide)) :
        Reachable (registerTab StoredValue.absent tidA 0) 5))
    (tidA, TabData.mk 0 5) (by decide)
